import Mathlib

/-!
Verification of the weather-assistant service (src/app.py) against its
specification.  The Python source is shallowly embedded: JSON values are an
inductive type, `json.loads` / `json.dumps` are executable Lean functions,
the network is an explicit environment of request-to-response functions, and
Python exceptions are modelled with `Except`.  All definitions are
structurally recursive so that concrete inputs evaluate by kernel reduction.
-/

mutual

/-- JSON values as produced by `json.loads`.  Numbers keep their source
lexeme (the code never does arithmetic on parsed numbers, it only passes
them through or re-serializes them).  Mutual lists are used instead of
nested `List` so that all recursions stay structural. -/
inductive Json : Type where
  | null : Json
  | bool (b : Bool) : Json
  | num (lexeme : List Char) : Json
  | str (s : List Char) : Json
  | arr (elems : JsonList) : Json
  | obj (fields : JsonObj) : Json

/-- A list of JSON values (elements of a JSON array). -/
inductive JsonList : Type where
  | nil : JsonList
  | cons (hd : Json) (tl : JsonList) : JsonList

/-- The fields of a JSON object, in insertion order. -/
inductive JsonObj : Type where
  | nil : JsonObj
  | cons (key : List Char) (val : Json) (tl : JsonObj) : JsonObj

end

/-- Append one element at the end of a JSON array. -/
def jsonListSnoc : JsonList → Json → JsonList
  | JsonList.nil, v => JsonList.cons v JsonList.nil
  | JsonList.cons h t, v => JsonList.cons h (jsonListSnoc t v)

/-- Insert a field into an object the way a Python dict does: a duplicate
key keeps its original position but takes the new value. -/
def objInsert : JsonObj → List Char → Json → JsonObj
  | JsonObj.nil, k, v => JsonObj.cons k v JsonObj.nil
  | JsonObj.cons k0 v0 t, k, v =>
    if k0 = k then JsonObj.cons k0 v t else JsonObj.cons k0 v0 (objInsert t k v)

/-- Field lookup with a default, modelling `dict.get(key, default)`. -/
def objLookupD : JsonObj → List Char → Json → Json
  | JsonObj.nil, _, d => d
  | JsonObj.cons k0 v0 t, k, d => if k0 = k then v0 else objLookupD t k d

/-- Whether an object has a given key, modelling `key in dict`. -/
def objHasKey : JsonObj → List Char → Bool
  | JsonObj.nil, _ => false
  | JsonObj.cons k0 _ t, k => if k0 = k then true else objHasKey t k

/-- A numeric lexeme denotes zero iff its mantissa has a digit and every
digit of the mantissa is `0` (so `0`, `-0.0`, `0e7` are falsy while `NaN`
and `Infinity` are truthy, as in Python). -/
def numIsZeroLex (l : List Char) : Bool :=
  let mant := l.takeWhile (fun c => c ≠ 'e' ∧ c ≠ 'E')
  mant.any (fun c => c.isDigit) && mant.all (fun c => !c.isDigit || c = '0')

/-- Python truthiness of a JSON value (`bool(x)`). -/
def pyTruthy : Json → Bool
  | Json.null => false
  | Json.bool b => b
  | Json.num l => !(numIsZeroLex l)
  | Json.str [] => false
  | Json.str (_ :: _) => true
  | Json.arr JsonList.nil => false
  | Json.arr (JsonList.cons _ _) => true
  | Json.obj JsonObj.nil => false
  | Json.obj (JsonObj.cons _ _ _) => true

mutual

/-- Python `str()` of a parsed JSON value. -/
def pyStr : Json → List Char
  | Json.null => ("None").toList
  | Json.bool true => ("True").toList
  | Json.bool false => ("False").toList
  | Json.num l => l
  | Json.str s => s
  | Json.arr l => '[' :: pyReprList l ++ [']']
  | Json.obj o => '{' :: pyReprObj o ++ ['}']

/-- Python `repr()` of a parsed JSON value (used for container elements). -/
def pyRepr : Json → List Char
  | Json.str s => '\'' :: s ++ ['\'']
  | Json.arr l => '[' :: pyReprList l ++ [']']
  | Json.obj o => '{' :: pyReprObj o ++ ['}']
  | v => pyStr v

/-- Comma-separated reprs of array elements. -/
def pyReprList : JsonList → List Char
  | JsonList.nil => []
  | JsonList.cons h JsonList.nil => pyRepr h
  | JsonList.cons h t => pyRepr h ++ ',' :: ' ' :: pyReprList t

/-- Comma-separated `key: value` reprs of object fields. -/
def pyReprObj : JsonObj → List Char
  | JsonObj.nil => []
  | JsonObj.cons k v JsonObj.nil => '\'' :: k ++ '\'' :: ':' :: ' ' :: pyRepr v
  | JsonObj.cons k v t => '\'' :: k ++ '\'' :: ':' :: ' ' :: pyRepr v ++ ',' :: ' ' :: pyReprObj t

end

/-- Hexadecimal digit character for values below 16. -/
def hexDigitCh (n : Nat) : Char :=
  if n < 10 then Char.ofNat ('0'.toNat + n) else Char.ofNat ('a'.toNat + (n - 10))

/-- Escape one character the way `json.dumps` (with its default
`ensure_ascii=True`) does. -/
def dumpEscChar (c : Char) : List Char :=
  if c = '"' then ['\\', '"']
  else if c = '\\' then ['\\', '\\']
  else if c = '\n' then ['\\', 'n']
  else if c = '\t' then ['\\', 't']
  else if c = '\r' then ['\\', 'r']
  else if c.toNat = 8 then ['\\', 'b']
  else if c.toNat = 12 then ['\\', 'f']
  else if c.toNat < 32 ∨ 126 < c.toNat then
    ['\\', 'u', hexDigitCh (c.toNat / 4096 % 16), hexDigitCh (c.toNat / 256 % 16),
     hexDigitCh (c.toNat / 16 % 16), hexDigitCh (c.toNat % 16)]
  else [c]

/-- Serialize a string literal as `json.dumps` does. -/
def dumpStrLit (s : List Char) : List Char :=
  '"' :: s.foldr (fun c acc => dumpEscChar c ++ acc) ['"']

mutual

/-- `json.dumps(v)` with the default separators `", "` and `": "`.
Numbers are emitted as their stored lexeme. -/
def jsonDumps : Json → List Char
  | Json.null => ("null").toList
  | Json.bool true => ("true").toList
  | Json.bool false => ("false").toList
  | Json.num l => l
  | Json.str s => dumpStrLit s
  | Json.arr l => '[' :: jsonDumpsList l ++ [']']
  | Json.obj o => '{' :: jsonDumpsObj o ++ ['}']

/-- Serialized array elements, separated by `", "`. -/
def jsonDumpsList : JsonList → List Char
  | JsonList.nil => []
  | JsonList.cons h JsonList.nil => jsonDumps h
  | JsonList.cons h t => jsonDumps h ++ ',' :: ' ' :: jsonDumpsList t

/-- Serialized object fields, separated by `", "`, with `": "` after keys. -/
def jsonDumpsObj : JsonObj → List Char
  | JsonObj.nil => []
  | JsonObj.cons k v JsonObj.nil => dumpStrLit k ++ ':' :: ' ' :: jsonDumps v
  | JsonObj.cons k v t => dumpStrLit k ++ ':' :: ' ' :: jsonDumps v ++ ',' :: ' ' :: jsonDumpsObj t

end

/-- Skip JSON whitespace. -/
def skipWs : List Char → List Char
  | [] => []
  | c :: rest =>
    if c = ' ' ∨ c = '\t' ∨ c = '\n' ∨ c = '\r' then skipWs rest else c :: rest

/-- Value of one hex digit, if any. -/
def hexVal (c : Char) : Option Nat :=
  if '0' ≤ c ∧ c ≤ '9' then some (c.toNat - '0'.toNat)
  else if 'a' ≤ c ∧ c ≤ 'f' then some (c.toNat - 'a'.toNat + 10)
  else if 'A' ≤ c ∧ c ≤ 'F' then some (c.toNat - 'A'.toNat + 10)
  else none

/-- Unescaped character for a single-character JSON escape. -/
def escVal (c : Char) : Option Char :=
  if c = '"' then some '"'
  else if c = '\\' then some '\\'
  else if c = '/' then some '/'
  else if c = 'b' then some (Char.ofNat 8)
  else if c = 'f' then some (Char.ofNat 12)
  else if c = 'n' then some '\n'
  else if c = 'r' then some '\r'
  else if c = 't' then some '\t'
  else none

/-- Parse the body of a JSON string literal after the opening quote; returns
the decoded string and the remaining input. -/
def parseStrBody : List Char → Except (List Char) (List Char × List Char)
  | [] => Except.error (("Unterminated string").toList)
  | '"' :: rest => Except.ok ([], rest)
  | '\\' :: 'u' :: h1 :: h2 :: h3 :: h4 :: rest =>
    match hexVal h1, hexVal h2, hexVal h3, hexVal h4 with
    | some a, some b, some c, some d =>
      match parseStrBody rest with
      | Except.ok (s, rem) => Except.ok (Char.ofNat (4096 * a + 256 * b + 16 * c + d) :: s, rem)
      | Except.error e => Except.error e
    | _, _, _, _ => Except.error (("Invalid unicode escape").toList)
  | '\\' :: e :: rest =>
    match escVal e with
    | some c =>
      match parseStrBody rest with
      | Except.ok (s, rem) => Except.ok (c :: s, rem)
      | Except.error err => Except.error err
    | none => Except.error (("Invalid escape").toList)
  | c :: rest =>
    match parseStrBody rest with
    | Except.ok (s, rem) => Except.ok (c :: s, rem)
    | Except.error e => Except.error e

/-- Take a maximal run of decimal digits. -/
def spanDigits : List Char → List Char × List Char
  | [] => ([], [])
  | c :: rest =>
    if c.isDigit then
      let p := spanDigits rest
      (c :: p.1, p.2)
    else ([], c :: rest)

/-- Parse the exponent digits after `e`/`E` with an optional sign. -/
def parseExpPart (pre : List Char) (rest : List Char) (frac : List Char) :
    Except (List Char) (List Char × List Char) :=
  let (sign, rest2) :=
    match rest with
    | '+' :: r => (['+'], r)
    | '-' :: r => (['-'], r)
    | other => (([] : List Char), other)
  match spanDigits rest2 with
  | ([], _) => Except.error (("Expecting digit in exponent").toList)
  | (ds, rem) => Except.ok (frac ++ pre ++ sign ++ ds, rem)

/-- Parse the fraction-and-exponent tail of a JSON number (may be empty). -/
def parseNumTail (s : List Char) : Except (List Char) (List Char × List Char) :=
  let (frac, s1) :=
    match s with
    | '.' :: rest =>
      let p := spanDigits rest
      ('.' :: p.1, p.2)
    | other => (([] : List Char), other)
  match frac with
  | '.' :: [] => Except.error (("Expecting digit after decimal point").toList)
  | _ =>
    match s1 with
    | 'e' :: rest => parseExpPart ('e' :: []) rest frac
    | 'E' :: rest => parseExpPart ('E' :: []) rest frac
    | other => Except.ok (frac, other)

/-- Parse a JSON number lexeme (after an optional leading minus has been
recognized by the caller); rejects leading zeros as `json.loads` does. -/
def parseNumBody (neg : Bool) (s : List Char) : Except (List Char) (List Char × List Char) :=
  match s with
  | '0' :: rest =>
    match parseNumTail rest with
    | Except.ok (tail, rem) => Except.ok ((if neg then ['-'] else []) ++ '0' :: tail, rem)
    | Except.error e => Except.error e
  | c :: rest =>
    if c.isDigit then
      let p := spanDigits rest
      match parseNumTail p.2 with
      | Except.ok (tail, rem) => Except.ok ((if neg then ['-'] else []) ++ c :: p.1 ++ tail, rem)
      | Except.error e => Except.error e
    else Except.error (("Expecting value").toList)
  | [] => Except.error (("Expecting value").toList)

mutual

/-- Parse one JSON value; `fuel` bounds the recursion depth and is chosen
large enough by `json_loads` that it is never exhausted on inputs the
parser accepts. -/
def parseVal : Nat → List Char → Except (List Char) (Json × List Char)
  | 0, _ => Except.error (("Nesting limit").toList)
  | fuel + 1, s0 =>
    match skipWs s0 with
    | [] => Except.error (("Expecting value").toList)
    | '{' :: rest =>
      (match skipWs rest with
       | '}' :: rest2 => Except.ok (Json.obj JsonObj.nil, rest2)
       | rest2 => parseMembers fuel rest2 JsonObj.nil)
    | '[' :: rest =>
      (match skipWs rest with
       | ']' :: rest2 => Except.ok (Json.arr JsonList.nil, rest2)
       | rest2 => parseElems fuel rest2 JsonList.nil)
    | '"' :: rest =>
      (match parseStrBody rest with
       | Except.ok (s, rem) => Except.ok (Json.str s, rem)
       | Except.error e => Except.error e)
    | 'n' :: 'u' :: 'l' :: 'l' :: rest => Except.ok (Json.null, rest)
    | 't' :: 'r' :: 'u' :: 'e' :: rest => Except.ok (Json.bool true, rest)
    | 'f' :: 'a' :: 'l' :: 's' :: 'e' :: rest => Except.ok (Json.bool false, rest)
    | 'N' :: 'a' :: 'N' :: rest => Except.ok (Json.num (("NaN").toList), rest)
    | 'I' :: 'n' :: 'f' :: 'i' :: 'n' :: 'i' :: 't' :: 'y' :: rest =>
      Except.ok (Json.num (("Infinity").toList), rest)
    | '-' :: 'I' :: 'n' :: 'f' :: 'i' :: 'n' :: 'i' :: 't' :: 'y' :: rest =>
      Except.ok (Json.num (("-Infinity").toList), rest)
    | '-' :: rest =>
      (match parseNumBody true rest with
       | Except.ok (lex, rem) => Except.ok (Json.num lex, rem)
       | Except.error e => Except.error e)
    | s =>
      (match parseNumBody false s with
       | Except.ok (lex, rem) => Except.ok (Json.num lex, rem)
       | Except.error e => Except.error e)

/-- Parse the elements of a non-empty JSON array. -/
def parseElems : Nat → List Char → JsonList → Except (List Char) (Json × List Char)
  | 0, _, _ => Except.error (("Nesting limit").toList)
  | fuel + 1, s, acc =>
    match parseVal fuel s with
    | Except.error e => Except.error e
    | Except.ok (v, rest) =>
      match skipWs rest with
      | ',' :: r => parseElems fuel r (jsonListSnoc acc v)
      | ']' :: r => Except.ok (Json.arr (jsonListSnoc acc v), r)
      | _ => Except.error (("Expecting comma delimiter").toList)

/-- Parse the members of a non-empty JSON object. -/
def parseMembers : Nat → List Char → JsonObj → Except (List Char) (Json × List Char)
  | 0, _, _ => Except.error (("Nesting limit").toList)
  | fuel + 1, s, acc =>
    match skipWs s with
    | '"' :: rest =>
      (match parseStrBody rest with
       | Except.error e => Except.error e
       | Except.ok (k, rest2) =>
         match skipWs rest2 with
         | ':' :: rest3 =>
           (match parseVal fuel rest3 with
            | Except.error e => Except.error e
            | Except.ok (v, rest4) =>
              match skipWs rest4 with
              | ',' :: r => parseMembers fuel r (objInsert acc k v)
              | '}' :: r => Except.ok (Json.obj (objInsert acc k v), r)
              | _ => Except.error (("Expecting comma delimiter").toList))
         | _ => Except.error (("Expecting colon delimiter").toList))
    | _ => Except.error (("Expecting property name enclosed in double quotes").toList)

end

/-- The model of `json.loads`: parse one value and require only whitespace
after it. -/
def json_loads (s : List Char) : Except (List Char) Json :=
  match parseVal (2 * s.length + 2) s with
  | Except.error e => Except.error e
  | Except.ok (v, rest) =>
    match skipWs rest with
    | [] => Except.ok v
    | _ => Except.error (("Extra data").toList)

example : json_loads (("\x7b\x7d").toList) = Except.ok (Json.obj JsonObj.nil) := rfl
example : json_loads (("null").toList) = Except.ok Json.null := rfl
example : json_loads (("not valid json").toList) = Except.error (("Expecting value").toList) := rfl
example :
    json_loads (("\x7b\"city_name\": \"Nowhereville\"\x7d").toList) =
      Except.ok (Json.obj (JsonObj.cons (("city_name").toList)
        (Json.str (("Nowhereville").toList)) JsonObj.nil)) := rfl
example : json_loads (("[1, -2.5e3]").toList) =
    Except.ok (Json.arr (JsonList.cons (Json.num (("1").toList))
      (JsonList.cons (Json.num (("-2.5e3").toList)) JsonList.nil))) := rfl
example : jsonDumps (Json.obj (JsonObj.cons (("error").toList)
    (Json.str (("boom").toList)) JsonObj.nil)) = ("\x7b\"error\": \"boom\"\x7d").toList := rfl
example : jsonDumps Json.null = ("null").toList := rfl

/-! ## The network environment

The three upstream HTTP endpoints (geocoding, current conditions,
historical) are modelled as functions from the request each Python function
builds to an HTTP outcome.  `requests.raise_for_status` turns an error
status into an `HTTPError`, which all three functions catch (it is a
`RequestException`), so both failure variants collapse to `None`. -/

/-- Outcome of one `requests.get` followed by `raise_for_status` and
`.json()`: a parsed body, an HTTP error status, or a transport failure. -/
inductive HttpResult where
  | ok (body : Json) : HttpResult
  | httpError (status : Nat) (text : List Char) : HttpResult
  | requestError (msg : List Char) : HttpResult

/-- The query parameters sent to the Geocoding API (`q`, `limit`, `appid`);
`appid` comes from the `WEATHER_API_KEY` environment variable. -/
structure GeoRequest where
  q : Json
  limit : Nat
  appid : Option (List Char)

/-- The query parameters sent to the One Call endpoint; `exclude` is absent
when the argument was falsy. -/
structure OnecallRequest where
  url : List Char
  lat : Json
  lon : Json
  appid : Option (List Char)
  exclude : Option (List Char)

/-- The query parameters sent to the History API; here `appid` is the
`api_key` function argument. -/
structure HistoryRequest where
  lat : Json
  lon : Json
  dataType : Json
  start : Json
  cnt : Json
  appid : Json

/-- The ambient process environment: the two environment variables, the
local timezone offset (used by `datetime.timestamp()` on naive values),
and the responses of the three upstream endpoints. -/
structure Env where
  weatherApiKey : Option (List Char)
  onecallUrl : List Char
  localUtcOffset : Int
  geocode : GeoRequest → HttpResult
  onecall : OnecallRequest → HttpResult
  history : HistoryRequest → HttpResult

/-- Python `x[0]` on a parsed JSON value: first element of a list, a
one-character string of a string; anything else raises. -/
def pyIndex0 : Json → Except (List Char) Json
  | Json.arr (JsonList.cons h _) => Except.ok h
  | Json.arr JsonList.nil => Except.error (("IndexError: list index out of range").toList)
  | Json.str (c :: _) => Except.ok (Json.str [c])
  | Json.str [] => Except.error (("IndexError: string index out of range").toList)
  | Json.obj _ => Except.error (("KeyError: 0").toList)
  | _ => Except.error (("TypeError: object is not subscriptable").toList)

/-- Python `x[key]` with a string key: dict lookup (KeyError when absent);
anything else raises a TypeError. -/
def pySubscript (v : Json) (key : List Char) : Except (List Char) Json :=
  match v with
  | Json.obj o =>
    if objHasKey o key then Except.ok (objLookupD o key Json.null)
    else Except.error (("KeyError: ").toList ++ key)
  | _ => Except.error (("TypeError: object is not subscriptable").toList)

/-- Python `args.get(key)`: `None` when the key is absent; raises an
AttributeError when the receiver is not a dict. -/
def pyGet (args : Json) (key : List Char) : Except (List Char) Json :=
  match args with
  | Json.obj o => Except.ok (objLookupD o key Json.null)
  | _ => Except.error (("AttributeError: object has no attribute get").toList)

/-- Python `args.get(key, default)`. -/
def pyGetD (args : Json) (key : List Char) (d : Json) : Except (List Char) Json :=
  match args with
  | Json.obj o => Except.ok (objLookupD o key d)
  | _ => Except.error (("AttributeError: object has no attribute get").toList)

/-- Extending a Python list with a string appends its characters as
one-character strings. -/
def jsonListAppendChars (l : JsonList) : List Char → JsonList
  | [] => l
  | c :: rest => jsonListAppendChars (jsonListSnoc l (Json.str [c])) rest

/-- One `+=` step of the `q` accumulation in `get_weather_by_city`:
when `addend` is truthy, append `","` followed by `str(addend)` (a string
concatenates, a list extends element-wise, anything else raises a
TypeError); when falsy, leave `q` unchanged. -/
def appendIfTruthy (q addend : Json) : Except (List Char) Json :=
  if pyTruthy addend then
    match q with
    | Json.str s => Except.ok (Json.str (s ++ ',' :: pyStr addend))
    | Json.arr l => Except.ok (Json.arr (jsonListAppendChars l (',' :: pyStr addend)))
    | _ => Except.error (("TypeError: unsupported operand types for +=").toList)
  else Except.ok q

/-- Join the elements of a JSON array with `,`, as `",".join(x)` does;
every element must be a string. -/
def joinCommaList : JsonList → Except (List Char) (List Char)
  | JsonList.nil => Except.ok []
  | JsonList.cons (Json.str s) JsonList.nil => Except.ok s
  | JsonList.cons (Json.str s) t =>
    match joinCommaList t with
    | Except.ok r => Except.ok (s ++ ',' :: r)
    | Except.error e => Except.error e
  | JsonList.cons _ _ => Except.error (("TypeError: sequence item: expected str instance").toList)

/-- Join the keys of a dict with `,` (iterating a dict yields its keys). -/
def joinCommaKeys : JsonObj → List Char
  | JsonObj.nil => []
  | JsonObj.cons k _ JsonObj.nil => k
  | JsonObj.cons k _ t => k ++ ',' :: joinCommaKeys t

/-- The `exclude` parameter of the One Call request: absent when falsy,
the string itself when a string, otherwise `",".join(exclude)`. -/
def buildExclude (exclude : Json) : Except (List Char) (Option (List Char)) :=
  if pyTruthy exclude then
    match exclude with
    | Json.str s => Except.ok (some s)
    | Json.arr l =>
      (match joinCommaList l with
       | Except.ok s => Except.ok (some s)
       | Except.error e => Except.error e)
    | Json.obj o => Except.ok (some (joinCommaKeys o))
    | _ => Except.error (("TypeError: can only join an iterable").toList)
  else Except.ok none

/-- The request `get_openweather_onecall` sends: note that `appid` is read
from the `WEATHER_API_KEY` environment variable, never from the `api_key`
function argument. -/
def onecallParams (env : Env) (lat lon : Json) (excl : Option (List Char)) : OnecallRequest :=
  { url := env.onecallUrl, lat := lat, lon := lon, appid := env.weatherApiKey, exclude := excl }

/-- Model of `get_openweather_onecall` (src/app.py:74-90).  `Except.error`
is a raised Python exception; `Except.ok Json.null` is the `None` return
on any `RequestException`. -/
def get_openweather_onecall (env : Env) (lat lon api_key exclude : Json) :
    Except (List Char) Json :=
  match buildExclude exclude with
  | Except.error e => Except.error e
  | Except.ok excl =>
    match env.onecall (onecallParams env lat lon excl) with
    | HttpResult.ok body => Except.ok body
    | HttpResult.httpError _ _ => Except.ok Json.null
    | HttpResult.requestError _ => Except.ok Json.null

/-- The geocoding query string built by `get_weather_by_city`:
`q = city_name`, then `q += f",{state_code}"` and `q += f",{country_code}"`
for every truthy component. -/
def buildGeoQ (city_name state_code country_code : Json) : Except (List Char) Json :=
  match appendIfTruthy city_name state_code with
  | Except.error e => Except.error e
  | Except.ok q1 => appendIfTruthy q1 country_code

/-- The request `get_weather_by_city` sends to the Geocoding API; like the
One Call request, its `appid` is the environment variable, not the
`api_key` argument. -/
def geoParams (env : Env) (q : Json) : GeoRequest :=
  { q := q, limit := 1, appid := env.weatherApiKey }

/-- Model of `get_weather_by_city` (src/app.py:24-70): geocode the place
name (first match only), then fetch conditions for its coordinates.
`Except.ok Json.null` is the `None` returned on a `RequestException` or an
empty geocoding result; key and type errors while reading the geocoding
body are raised (`Except.error`), as the `try` only catches
`RequestException`. -/
def get_weather_by_city (env : Env)
    (city_name api_key country_code state_code exclude : Json) :
    Except (List Char) Json :=
  match buildGeoQ city_name state_code country_code with
  | Except.error e => Except.error e
  | Except.ok q =>
    match env.geocode (geoParams env q) with
    | HttpResult.httpError _ _ => Except.ok Json.null
    | HttpResult.requestError _ => Except.ok Json.null
    | HttpResult.ok geo_data =>
      if pyTruthy geo_data then
        match pyIndex0 geo_data with
        | Except.error e => Except.error e
        | Except.ok first =>
          match pySubscript first (("lat").toList) with
          | Except.error e => Except.error e
          | Except.ok lat =>
            match pySubscript first (("lon").toList) with
            | Except.error e => Except.error e
            | Except.ok lon => get_openweather_onecall env lat lon api_key exclude
      else Except.ok Json.null

/-- The request `get_historical_weather` sends; its `appid` is the
`api_key` function argument. -/
def historyParams (lat lon api_key start cnt data_type : Json) : HistoryRequest :=
  { lat := lat, lon := lon, dataType := data_type, start := start, cnt := cnt, appid := api_key }

/-- Model of `get_historical_weather` (src/app.py:112-147): both the
HTTPError branch and the RequestException branch only print diagnostics and
fall through to `return None`. -/
def get_historical_weather (env : Env) (lat lon api_key start cnt data_type : Json) :
    Except (List Char) Json :=
  match env.history (historyParams lat lon api_key start cnt data_type) with
  | HttpResult.ok body => Except.ok body
  | HttpResult.httpError _ _ => Except.ok Json.null
  | HttpResult.requestError _ => Except.ok Json.null

/-! ## Datetimes

`datetime.datetime` values carry wall-clock fields plus an optional fixed
UTC offset (`none` models a naive datetime). -/

/-- A Python `datetime` value. -/
structure PyDatetime where
  year : Nat
  month : Nat
  day : Nat
  hour : Nat
  minute : Nat
  second : Nat
  microsecond : Nat
  utcOffsetSeconds : Option Int

/-- Days since 1970-01-01 of a proleptic Gregorian date with year ≥ 1
(the civil-from-days algorithm, in purely natural arithmetic). -/
def daysFromCivil (y m d : Nat) : Int :=
  let ys := if m ≤ 2 then y - 1 else y
  let era := ys / 400
  let yoe := ys % 400
  let mp := (m + 9) % 12
  let doy := (153 * mp + 2) / 5 + d - 1
  let doe := yoe * 365 + yoe / 4 - yoe / 100 + doy
  (era * 146097 + doe : Int) - 719468

/-- Seconds since the epoch of the wall-clock fields read as a UTC time. -/
def epochOfFieldsUTC (dt : PyDatetime) : Int :=
  86400 * daysFromCivil dt.year dt.month dt.day +
    3600 * dt.hour + 60 * dt.minute + dt.second

/-- Model of `dt.replace(tzinfo=...)`: same wall-clock fields, new offset. -/
def pyReplaceTzinfo (dt : PyDatetime) (off : Option Int) : PyDatetime :=
  { dt with utcOffsetSeconds := off }

/-- Model of `int(dt.timestamp())`: an aware datetime is its fields minus
its offset; a naive one is interpreted in the process-local timezone
(`localOff`).  `int()` truncates the fractional part toward zero. -/
def pyIntTimestamp (localOff : Int) (dt : PyDatetime) : Int :=
  let off :=
    match dt.utcOffsetSeconds with
    | some o => o
    | none => localOff
  let t := epochOfFieldsUTC dt - off
  if dt.microsecond = 0 ∨ 0 ≤ t then t else t + 1

/-- Model of `datetime_to_utc_timestamp` (src/app.py:150-151):
`int(dt.replace(tzinfo=timezone.utc).timestamp())`. -/
def datetime_to_utc_timestamp (localOff : Int) (dt : PyDatetime) : Int :=
  pyIntTimestamp localOff (pyReplaceTzinfo dt (some 0))

/-- Numeric value of a run of decimal digits. -/
def digitsToNat : List Char → Nat → Nat
  | [], acc => acc
  | c :: rest, acc => digitsToNat rest (10 * acc + (c.toNat - '0'.toNat))

/-- Days in a month of the proleptic Gregorian calendar. -/
def daysInMonth (y m : Nat) : Nat :=
  if m = 2 then (if (y % 4 = 0 ∧ ¬ y % 100 = 0) ∨ y % 400 = 0 then 29 else 28)
  else if m = 4 ∨ m = 6 ∨ m = 9 ∨ m = 11 then 30 else 31

/-- Parse `HH:MM[:SS]` as a signed offset in seconds (after the sign). -/
def parseIsoOffset (sign : Int) : List Char → Option Int
  | [h1, h2, ':', m1, m2] =>
    if h1.isDigit ∧ h2.isDigit ∧ m1.isDigit ∧ m2.isDigit then
      some (sign * (3600 * digitsToNat [h1, h2] 0 + 60 * digitsToNat [m1, m2] 0))
    else none
  | [h1, h2, ':', m1, m2, ':', s1, s2] =>
    if h1.isDigit ∧ h2.isDigit ∧ m1.isDigit ∧ m2.isDigit ∧ s1.isDigit ∧ s2.isDigit then
      some (sign * (3600 * digitsToNat [h1, h2] 0 + 60 * digitsToNat [m1, m2] 0 +
        digitsToNat [s1, s2] 0))
    else none
  | _ => none

/-- Parse the optional `[±HH:MM[:SS]]` or `Z` suffix of an ISO time. -/
def parseIsoTz : List Char → Option (Option Int)
  | [] => some none
  | 'Z' :: rest => if rest = [] then some (some 0) else none
  | '+' :: rest =>
    (match parseIsoOffset 1 rest with
     | some o => some (some o)
     | none => none)
  | '-' :: rest =>
    (match parseIsoOffset (-1) rest with
     | some o => some (some o)
     | none => none)
  | _ => none

/-- Parse `[:SS[.ffffff]]` plus timezone, giving (seconds, microseconds,
offset). -/
def parseIsoSeconds : List Char → Option (Nat × Nat × Option Int)
  | [] => some (0, 0, none)
  | ':' :: s1 :: s2 :: rest =>
    if s1.isDigit ∧ s2.isDigit then
      let s := digitsToNat [s1, s2] 0
      if s ≤ 59 then
        match rest with
        | '.' :: rest2 =>
          let frac := rest2.takeWhile (fun c => c.isDigit)
          let rem := rest2.dropWhile (fun c => c.isDigit)
          if 1 ≤ frac.length ∧ frac.length ≤ 6 then
            match parseIsoTz rem with
            | some tz => some (s, digitsToNat frac 0 * 10 ^ (6 - frac.length), tz)
            | none => none
          else none
        | _ =>
          match parseIsoTz rest with
          | some tz => some (s, 0, tz)
          | none => none
      else none
    else none
  | rest =>
    match parseIsoTz rest with
    | some tz => some (0, 0, tz)
    | none => none

/-- Parse the `HH:MM...` part of an ISO datetime. -/
def parseIsoTime (y mo d : Nat) : List Char → Option PyDatetime
  | h1 :: h2 :: ':' :: mi1 :: mi2 :: rest =>
    if h1.isDigit ∧ h2.isDigit ∧ mi1.isDigit ∧ mi2.isDigit then
      let h := digitsToNat [h1, h2] 0
      let mi := digitsToNat [mi1, mi2] 0
      if h ≤ 23 ∧ mi ≤ 59 then
        match parseIsoSeconds rest with
        | some (s, us, tz) => some ⟨y, mo, d, h, mi, s, us, tz⟩
        | none => none
      else none
    else none
  | _ => none

/-- Model of `datetime.fromisoformat` on the `YYYY-MM-DD[{T, }HH:MM[:SS
[.ffffff]][offset]]` shapes the assistant is instructed to send. -/
def parseIso : List Char → Option PyDatetime
  | y1 :: y2 :: y3 :: y4 :: '-' :: m1 :: m2 :: '-' :: d1 :: d2 :: rest =>
    if y1.isDigit ∧ y2.isDigit ∧ y3.isDigit ∧ y4.isDigit ∧
       m1.isDigit ∧ m2.isDigit ∧ d1.isDigit ∧ d2.isDigit then
      let y := digitsToNat [y1, y2, y3, y4] 0
      let mo := digitsToNat [m1, m2] 0
      let d := digitsToNat [d1, d2] 0
      if 1 ≤ y ∧ 1 ≤ mo ∧ mo ≤ 12 ∧ 1 ≤ d ∧ d ≤ daysInMonth y mo then
        match rest with
        | [] => some ⟨y, mo, d, 0, 0, 0, 0, none⟩
        | sep :: rest2 =>
          if sep = 'T' ∨ sep = ' ' then parseIsoTime y mo d rest2 else none
      else none
    else none
  | _ => none

/-- Model of `datetime.fromisoformat(x)` as called by the dispatcher:
a non-string argument raises a TypeError, an unparsable string a
ValueError. -/
def pyFromIsoformat : Json → Except (List Char) PyDatetime
  | Json.str s =>
    (match parseIso s with
     | some dt => Except.ok dt
     | none => Except.error (("ValueError: Invalid isoformat string").toList))
  | _ => Except.error (("TypeError: fromisoformat: argument must be str").toList)

/-! ## The tool dispatcher -/

/-- A pending function-invocation request from the assistant. -/
structure ToolCall where
  id : List Char
  function_name : List Char
  function_arguments : List Char
deriving DecidableEq

/-- The dict the dispatcher returns: the correlation id plus at most one of
`output` (serialized success payload) and `error` (failure description);
an absent Python key is `none`. -/
structure ToolOutput where
  tool_call_id : List Char
  output : Option (List Char)
  error : Option (List Char)
deriving DecidableEq

/-- Association-list lookup, modelling indexing into the
`tool_dispatcher` dict. -/
def assocLookup {β : Type} : List (List Char × β) → List Char → Option β
  | [], _ => none
  | (k, f) :: t, name => if k = name then some f else assocLookup t name

/-- The `tool_dispatcher` mapping (src/app.py:472-497): each recognized
tool name is bound to a closure that extracts its arguments with
`args.get` and invokes the matching operation. -/
def tool_dispatcher (env : Env) : List (List Char × (Json → Except (List Char) Json)) :=
  [((("get_weather_by_city").toList),
    fun args => do
      let city_name ← pyGet args (("city_name").toList)
      let api_key ← pyGet args (("api_key").toList)
      let country_code ← pyGet args (("country_code").toList)
      let state_code ← pyGet args (("state_code").toList)
      let exclude ← pyGet args (("exclude").toList)
      get_weather_by_city env city_name api_key country_code state_code exclude),
   ((("get_openweather_onecall").toList),
    fun args => do
      let lat ← pyGet args (("lat").toList)
      let lon ← pyGet args (("lon").toList)
      let api_key ← pyGet args (("api_key").toList)
      let exclude ← pyGet args (("exclude").toList)
      get_openweather_onecall env lat lon api_key exclude),
   ((("get_historical_weather").toList),
    fun args => do
      let lat ← pyGet args (("lat").toList)
      let lon ← pyGet args (("lon").toList)
      let api_key ← pyGet args (("api_key").toList)
      let start ← pyGet args (("start").toList)
      let cnt ← pyGet args (("cnt").toList)
      let data_type ← pyGetD args (("data_type").toList) (Json.str (("hour").toList))
      get_historical_weather env lat lon api_key start cnt data_type),
   ((("datetime_to_utc_timestamp").toList),
    fun args => do
      let dtArg ← pyGet args (("dt").toList)
      let dt ← pyFromIsoformat dtArg
      Except.ok (Json.num ((toString (datetime_to_utc_timestamp env.localUtcOffset dt)).toList)))]

/-- Model of `get_outputs_for_tools` (src/app.py:429-542).  The inner
`try` turns a JSON parse failure into an `error` result; an unknown name
yields `error: "Unknown tool: <name>"`; a successful execution is
serialized with `json.dumps` into `output`; any exception raised during
execution is caught by the outer `try` and becomes an `error` result.  The
function is total: every path returns a `ToolOutput`. -/
def get_outputs_for_tools (env : Env) (tool_call : ToolCall) : ToolOutput :=
  match json_loads tool_call.function_arguments with
  | Except.error e =>
    { tool_call_id := tool_call.id, output := none,
      error := some ((("Invalid JSON in arguments: ").toList) ++ e) }
  | Except.ok arguments =>
    match assocLookup (tool_dispatcher env) tool_call.function_name with
    | none =>
      { tool_call_id := tool_call.id, output := none,
        error := some ((("Unknown tool: ").toList) ++ tool_call.function_name) }
    | some f =>
      match f arguments with
      | Except.ok result =>
        { tool_call_id := tool_call.id, output := some (jsonDumps result), error := none }
      | Except.error e =>
        { tool_call_id := tool_call.id, output := none,
          error := some ((("Error executing tool: ").toList) ++ e) }

/-! ## The response formatter -/

/-- Left-to-right, non-overlapping replacement of `pat` by `rep`, i.e.
Python `s.replace(pat, rep)` for a non-empty pattern.  `fuel` only bounds
the recursion; since every step consumes at least one character, passing
the input length makes the bound inert. -/
def replF (fuel : Nat) (pat rep s : List Char) : List Char :=
  match fuel, s with
  | _, [] => []
  | 0, s => s
  | fuel + 1, c :: rest =>
    if pat.isPrefixOf (c :: rest) then
      rep ++ replF fuel pat rep (List.drop (pat.length - 1) rest)
    else c :: replF fuel pat rep rest

/-- Python `s.replace(pat, rep)`. -/
def pyReplace (pat rep s : List Char) : List Char := replF s.length pat rep s

/-- Whether `pat` occurs as a contiguous substring of `s`
(Python `pat in s`). -/
def hasSub (pat : List Char) : List Char → Bool
  | [] => pat.isEmpty
  | c :: rest => pat.isPrefixOf (c :: rest) || hasSub pat rest

/-- ASCII lowering of one character, as `str.lower()` does on the ASCII
range (the only range the historical-data marker uses). -/
def pyLowerCh (c : Char) : Char :=
  if 'A' ≤ c ∧ c ≤ 'Z' then Char.ofNat (c.toNat + 32) else c

/-- Python `s.lower()`. -/
def pyLower (s : List Char) : List Char := s.map pyLowerCh

/-- Model of `format_weather_response` (src/app.py:94-109): collapse `**`
to `*`, spell the two unit names as symbols, break `" - "` into list
items, and — only when the lowered text mentions `historical data` —
break lines before `|` (the trailing `.replace('---', '---')` replaces a
string by itself). -/
def format_weather_response (raw_text : List Char) : List Char :=
  let formatted :=
    pyReplace ((" - ").toList) (("\n- ").toList)
      (pyReplace (("Celsius").toList) (("°C").toList)
        (pyReplace (("Fahrenheit").toList) (("°F").toList)
          (pyReplace (("**").toList) (("*").toList) raw_text)))
  if hasSub (("historical data").toList) (pyLower formatted) then
    pyReplace (("---").toList) (("---").toList)
      (pyReplace (("|").toList) (("\n|").toList) formatted)
  else formatted

example : format_weather_response (("****").toList) = ("**").toList := rfl
example : format_weather_response (("**").toList) = ("*").toList := rfl
example : format_weather_response (("20 Celsius")).toList = ("20 °C").toList := rfl

/-! ## The conversation run orchestrator -/

/-- One entry of the list submitted by `submit_tool_outputs`: note it has
no `error` field — every result is encoded under `output`. -/
structure SubmitEntry where
  tool_call_id : List Char
  output : List Char
deriving DecidableEq

/-- A Run as observed through the assistant provider: its id, status
string, and the pending tool calls of its required action (meaningful when
the status is `requires_action`). -/
structure RunState where
  id : List Char
  status : List Char
  toolCalls : List ToolCall

/-- The validation step of the poll loop (src/app.py:368-370): a dispatch
result carrying neither `output` nor `error` gets
`error = "Invalid tool response format"`. -/
def validateToolResult (r : ToolOutput) : ToolOutput :=
  if r.output = none ∧ r.error = none then
    { r with error := some (("Invalid tool response format").toList) }
  else r

/-- The coercion step of the poll loop (src/app.py:372-377): an `output`
that is not valid JSON is wrapped as `{"result": <output>}`. -/
def forceJsonOutput (r : ToolOutput) : ToolOutput :=
  match r.output with
  | none => r
  | some o =>
    match json_loads o with
    | Except.ok _ => r
    | Except.error _ =>
      { r with output := some (jsonDumps (Json.obj
          (JsonObj.cons (("result").toList) (Json.str o) JsonObj.nil))) }

/-- Dispatch one tool call and post-process the result as the loop does. -/
def processToolCall (env : Env) (tc : ToolCall) : ToolOutput :=
  forceJsonOutput (validateToolResult (get_outputs_for_tools env tc))

/-- Python `a or b` for an optional string `a`: `b` when `a` is `None` or
empty, `a` otherwise. -/
def pyOrStr (a : Option (List Char)) (b : List Char) : List Char :=
  match a with
  | none => b
  | some [] => b
  | some (c :: rest) => c :: rest

/-- The `error` value placed into the fallback `{"error": ...}` payload
(`output.get("error")` is `None` when the key is absent). -/
def errField : Option (List Char) → Json
  | none => Json.null
  | some s => Json.str s

/-- The submission encoding (src/app.py:386-392): each result is sent as
`{tool_call_id, output}`, where `output` falls back to
`json.dumps({"error": <error>})` when the result has no truthy output. -/
def submitEntryOf (r : ToolOutput) : SubmitEntry :=
  { tool_call_id := r.tool_call_id,
    output := pyOrStr r.output (jsonDumps (Json.obj
      (JsonObj.cons (("error").toList) (errField r.error) JsonObj.nil))) }

/-- The full batch submitted for the pending tool calls of one poll
iteration. -/
def submittedBatch (env : Env) (calls : List ToolCall) : List SubmitEntry :=
  (calls.map (processToolCall env)).map submitEntryOf

/-- The assistant provider as seen by `ask`: thread creation, the
create-and-poll run, tool-output submission, run retrieval (indexed by how
many polls happened, so the run may evolve), and the latest message text. -/
structure AskEnv where
  net : Env
  newThreadId : List Char
  createAndPoll : List Char → RunState
  submitToolOutputs : List Char → List Char → List SubmitEntry → RunState
  retrieveRun : List Char → List Char → Nat → RunState
  latestMessageText : List Char → List Char

/-- The HTTP response and observable side effects of one `/ask` request. -/
structure AskResult where
  status : Nat
  body : Json
  sessionOut : Option (List Char)
  threadsCreated : Nat

/-- Outcome of `ask`: a response, or a poll loop that has not yet reached
a terminal status within the given fuel (the Python loop has no cap). -/
inductive AskOutcome where
  | done (r : AskResult) : AskOutcome
  | timeout : AskOutcome

/-- The poll loop of `ask` (src/app.py:355-406): on `requires_action`,
dispatch every pending call and submit the batch; stop on a terminal
status; otherwise retrieve the run again. -/
def askLoop (aenv : AskEnv) (threadId : List Char) :
    Nat → Nat → RunState → Option RunState
  | 0, _, _ => none
  | fuel + 1, polls, run =>
    let run2 :=
      if run.status = ("requires_action").toList then
        aenv.submitToolOutputs threadId run.id (submittedBatch aenv.net run.toolCalls)
      else run
    if run2.status = ("completed").toList ∨ run2.status = ("failed").toList ∨
       run2.status = ("expired").toList then
      some run2
    else askLoop aenv threadId fuel (polls + 1) (aenv.retrieveRun threadId run2.id polls)

/-- The post-guard body of the `/ask` handler (src/app.py:329-427): a
thread is created only when the session has none, the run is driven to a
terminal status, and the formatted latest message is returned with thread
id, run id and status. -/
def askMain (aenv : AskEnv) (fuel : Nat) (sessionIn : Option (List Char)) :
    Except (List Char) AskOutcome :=
  let threadId :=
    match sessionIn with
    | none => aenv.newThreadId
    | some t => t
  let created :=
    match sessionIn with
    | none => 1
    | some _ => 0
  let run0 := aenv.createAndPoll threadId
  match askLoop aenv threadId fuel 0 run0 with
  | none => Except.ok AskOutcome.timeout
  | some runEnd =>
    let final_message := format_weather_response (aenv.latestMessageText threadId)
    Except.ok (AskOutcome.done
      { status := 200,
        body := Json.obj (JsonObj.cons (("thread_id").toList) (Json.str threadId)
          (JsonObj.cons (("run_id").toList) (Json.str runEnd.id)
            (JsonObj.cons (("status").toList) (Json.str runEnd.status)
              (JsonObj.cons (("response").toList) (Json.str final_message) JsonObj.nil)))),
        sessionOut := some threadId, threadsCreated := created })

/-- Model of the `/ask` handler (src/app.py:316-427): a falsy `question`
short-circuits to HTTP 400 before any thread or run interaction;
`Except.error` is an uncaught Python exception (a non-dict body). -/
def ask (aenv : AskEnv) (fuel : Nat) (sessionIn : Option (List Char)) (body : Json) :
    Except (List Char) AskOutcome :=
  match pyGet body (("question").toList) with
  | Except.error e => Except.error e
  | Except.ok question =>
    if !(pyTruthy question) then
      Except.ok (AskOutcome.done
        { status := 400,
          body := Json.obj (JsonObj.cons (("error").toList)
            (Json.str (("No question provided").toList)) JsonObj.nil),
          sessionOut := sessionIn, threadsCreated := 0 })
    else askMain aenv fuel sessionIn

/-! ## Concrete environments used to instantiate the theorems -/

/-- An environment whose upstream endpoints always fail at transport
level. -/
def dummyEnv : Env :=
  { weatherApiKey := none,
    onecallUrl := ("https://api.openweathermap.org/data/2.5/weather").toList,
    localUtcOffset := 0,
    geocode := fun _ => HttpResult.requestError [],
    onecall := fun _ => HttpResult.requestError [],
    history := fun _ => HttpResult.requestError [] }

/-- An environment whose geocoding lookup always returns an empty result
list. -/
def emptyGeoEnv : Env :=
  { dummyEnv with geocode := fun _ => HttpResult.ok (Json.arr JsonList.nil) }

/-- An assistant-provider environment whose runs complete immediately. -/
def trivialAskEnv : AskEnv :=
  { net := dummyEnv,
    newThreadId := ("thread_1").toList,
    createAndPoll := fun _ =>
      { id := ("run_1").toList, status := ("completed").toList, toolCalls := [] },
    submitToolOutputs := fun _ rid _ =>
      { id := rid, status := ("completed").toList, toolCalls := [] },
    retrieveRun := fun _ rid _ =>
      { id := rid, status := ("completed").toList, toolCalls := [] },
    latestMessageText := fun _ => [] }

/-! ## Lemmas about the replacement model -/

/-- Replacing a pattern that does not occur leaves the text unchanged. -/
theorem replF_eq_self_of_not_hasSub (pat rep : List Char) :
    ∀ (fuel : Nat) (s : List Char), hasSub pat s = false → replF fuel pat rep s = s := by
  intro fuel
  induction fuel with
  | zero => intro s _; cases s <;> rfl
  | succ fuel ih =>
    intro s h
    cases s with
    | nil => rfl
    | cons c rest =>
      have h2 : pat.isPrefixOf (c :: rest) = false ∧ hasSub pat rest = false := by
        simpa [hasSub] using h
      simp only [replF, h2.1, Bool.false_eq_true, if_false]
      exact congrArg (fun t => c :: t) (ih rest h2.2)

/-- Replacing a non-empty pattern by itself is the identity. -/
theorem replF_self (pat : List Char) (hne : pat ≠ []) :
    ∀ (fuel : Nat) (s : List Char), replF fuel pat pat s = s := by
  intro fuel
  induction fuel with
  | zero => intro s; cases s <;> rfl
  | succ fuel ih =>
    intro s
    cases s with
    | nil => rfl
    | cons c rest =>
      by_cases hp : pat.isPrefixOf (c :: rest) = true
      · obtain ⟨t, ht⟩ := List.isPrefixOf_iff_prefix.mp hp
        obtain ⟨p0, pt, rfl⟩ : ∃ p0 pt, pat = p0 :: pt := by
          cases pat with
          | nil => exact absurd rfl hne
          | cons a b => exact ⟨a, b, rfl⟩
        have hht : p0 = c ∧ pt ++ t = rest := by simpa using ht
        simp only [replF, hp, if_true]
        rw [show (p0 :: pt).length - 1 = pt.length from rfl, ← hht.2,
          List.drop_left, ih t, ← hht.1]
        simp
      · simp only [replF, hp, if_false]
        exact congrArg (fun u => c :: u) (ih rest)

/-- Python-level corollary: `s.replace(pat, rep) = s` when `pat` does not
occur in `s`. -/
theorem pyReplace_eq_self_of_not_hasSub (pat rep s : List Char)
    (h : hasSub pat s = false) : pyReplace pat rep s = s :=
  replF_eq_self_of_not_hasSub pat rep s.length s h

/-- Python-level corollary: `s.replace(pat, pat) = s` for non-empty
`pat`. -/
theorem pyReplace_self (pat : List Char) (hne : pat ≠ []) (s : List Char) :
    pyReplace pat pat s = s :=
  replF_self pat hne s.length s

/-! ## Claim C2 -/

/-- C2 counterexample: the formatter is not idempotent.  On the repeated
emphasis marker `"****"` the first pass produces `"**"` (Python `replace`
scans left to right without rescanning), and the second pass collapses
that to `"*"`. -/
theorem format_weather_response_not_idempotent :
    ¬ (format_weather_response (format_weather_response (("****").toList)) =
        format_weather_response (("****").toList)) := by decide

/-- C2 (amended): the formatter is idempotent on exactly the texts the
source comment promises — those whose formatted image no longer contains a
trigger pattern: no `**`, no `Fahrenheit`, no `Celsius`, no `" - "`, and
either no case-insensitive `historical data` marker or no `|`. -/
theorem format_weather_response_idempotent_of_no_triggers (x : List Char)
    (h1 : hasSub (("**").toList) (format_weather_response x) = false)
    (h2 : hasSub (("Fahrenheit").toList) (format_weather_response x) = false)
    (h3 : hasSub (("Celsius").toList) (format_weather_response x) = false)
    (h4 : hasSub ((" - ").toList) (format_weather_response x) = false)
    (h5 : hasSub (("historical data").toList) (pyLower (format_weather_response x)) = false ∨
      hasSub (("|").toList) (format_weather_response x) = false) :
    format_weather_response (format_weather_response x) = format_weather_response x := by
  set y := format_weather_response x with hy
  have hch : pyReplace ((" - ").toList) (("\n- ").toList)
      (pyReplace (("Celsius").toList) (("°C").toList)
        (pyReplace (("Fahrenheit").toList) (("°F").toList)
          (pyReplace (("**").toList) (("*").toList) y))) = y := by
    rw [pyReplace_eq_self_of_not_hasSub _ _ _ h1, pyReplace_eq_self_of_not_hasSub _ _ _ h2,
      pyReplace_eq_self_of_not_hasSub _ _ _ h3, pyReplace_eq_self_of_not_hasSub _ _ _ h4]
  show format_weather_response y = y
  simp only [format_weather_response, hch]
  rcases h5 with h5 | h5
  · rw [if_neg (by simp only [Bool.not_eq_true]; exact h5)]
  · by_cases hh : hasSub (("historical data").toList) (pyLower y) = true
    · rw [if_pos hh, pyReplace_eq_self_of_not_hasSub _ _ _ h5,
        pyReplace_self _ (by decide)]
    · rw [if_neg hh]

/-- C2 witness: a concrete text whose image has no trigger pattern, on
which the two theorems apply. -/
theorem format_weather_response_idempotent_witness :
    format_weather_response (format_weather_response (("**a**").toList)) =
      format_weather_response (("**a**").toList) :=
  format_weather_response_idempotent_of_no_triggers (("**a**").toList)
    (by decide) (by decide) (by decide) (by decide) (Or.inl (by decide))

/-! ## Claim C9 -/

/-- C9: `datetime_to_utc_timestamp` reinterprets the wall-clock fields as
UTC: the input's offset (`tz1`, `tz2`; `none` is naive) and the process
local timezone (`off1`, `off2`) have no effect, and the result is the
timestamp of the same fields carrying offset zero — so two datetimes with
equal wall-clock fields but different timezones map to the same value. -/
theorem datetime_to_utc_timestamp_reinterprets_as_utc (off1 off2 : Int)
    (tz1 tz2 : Option Int) (y mo d h mi s us : Nat) :
    datetime_to_utc_timestamp off1 ⟨y, mo, d, h, mi, s, us, tz1⟩ =
      datetime_to_utc_timestamp off2 ⟨y, mo, d, h, mi, s, us, tz2⟩ ∧
    datetime_to_utc_timestamp off1 ⟨y, mo, d, h, mi, s, us, tz1⟩ =
      pyIntTimestamp 0 ⟨y, mo, d, h, mi, s, us, some 0⟩ :=
  ⟨rfl, rfl⟩

/-! ## Claim C1 -/

/-- C1: the dispatcher is total by construction (it is a Lean function
into `ToolOutput`); for every environment and every tool call — any name,
any raw argument string — its result carries the input's `tool_call_id`
and has exactly one of `output`/`error` set, and a batch of N calls maps
to exactly N outputs. -/
theorem get_outputs_for_tools_total_well_formed (env : Env) (tc : ToolCall)
    (calls : List ToolCall) :
    (get_outputs_for_tools env tc).tool_call_id = tc.id ∧
    (((get_outputs_for_tools env tc).output.isSome ∧
        (get_outputs_for_tools env tc).error = none) ∨
     ((get_outputs_for_tools env tc).output = none ∧
        (get_outputs_for_tools env tc).error.isSome)) ∧
    (calls.map (get_outputs_for_tools env)).length = calls.length := by
  refine ⟨?_, ?_, by simp⟩ <;>
  · rcases hj : json_loads tc.function_arguments with e | a
    · simp [get_outputs_for_tools, hj]
    · rcases hl : assocLookup (tool_dispatcher env) tc.function_name with _ | f
      · simp [get_outputs_for_tools, hj, hl]
      · rcases hf : f a with e2 | r <;> simp [get_outputs_for_tools, hj, hl, hf]

/-! ## Claim C5 -/

/-- The four tool names bound in the dispatcher table. -/
def recognizedToolNames : List (List Char) :=
  [(("get_weather_by_city").toList), (("get_openweather_onecall").toList),
   (("get_historical_weather").toList), (("datetime_to_utc_timestamp").toList)]

/-- C5: for every tool name outside the four recognized operations and
every parseable argument payload, the dispatcher answers
`error: "Unknown tool: <name>"`. -/
theorem unknown_tool_yields_unknown_error (env : Env) (tc : ToolCall) (a : Json)
    (hparse : json_loads tc.function_arguments = Except.ok a)
    (hname : tc.function_name ∉ recognizedToolNames) :
    get_outputs_for_tools env tc =
      { tool_call_id := tc.id, output := none,
        error := some ((("Unknown tool: ").toList) ++ tc.function_name) } := by
  have h' := hname
  simp only [recognizedToolNames, List.mem_cons, List.not_mem_nil, or_false,
    not_or] at h'
  obtain ⟨n1, n2, n3, n4⟩ := h'
  have hlook : assocLookup (tool_dispatcher env) tc.function_name = none := by
    simp only [tool_dispatcher, assocLookup]
    split_ifs with k1 k2 k3 k4
    · exact absurd k1.symm n1
    · exact absurd k2.symm n2
    · exact absurd k3.symm n3
    · exact absurd k4.symm n4
    · rfl
  unfold get_outputs_for_tools
  rw [hparse, hlook]

/-- C5 witness: `dispatch("unknown_tool", "{}")` yields exactly
`error: "Unknown tool: unknown_tool"`. -/
theorem unknown_tool_witness :
    get_outputs_for_tools dummyEnv
      { id := ("call_1").toList, function_name := ("unknown_tool").toList,
        function_arguments := ("\x7b\x7d").toList } =
      { tool_call_id := ("call_1").toList, output := none,
        error := some (("Unknown tool: unknown_tool").toList) } :=
  unknown_tool_yields_unknown_error dummyEnv _ (Json.obj JsonObj.nil) rfl (by decide)

/-! ## Claim C6 -/

/-- C6: for every raw argument string the parser rejects — and every tool
name, recognized or not — the dispatcher returns an error result
describing the parse failure; nothing propagates (the result is an
ordinary `ToolOutput`). -/
theorem invalid_json_yields_parse_error (env : Env) (tc : ToolCall) (e : List Char)
    (hparse : json_loads tc.function_arguments = Except.error e) :
    get_outputs_for_tools env tc =
      { tool_call_id := tc.id, output := none,
        error := some ((("Invalid JSON in arguments: ").toList) ++ e) } := by
  unfold get_outputs_for_tools
  rw [hparse]

/-- C6 witness: `dispatch("get_historical_weather", "not valid json")`
yields an error mentioning the JSON parse failure. -/
theorem invalid_json_witness :
    get_outputs_for_tools dummyEnv
      { id := ("call_2").toList, function_name := ("get_historical_weather").toList,
        function_arguments := ("not valid json").toList } =
      { tool_call_id := ("call_2").toList, output := none,
        error := some (("Invalid JSON in arguments: Expecting value").toList) } :=
  invalid_json_yields_parse_error dummyEnv _ (("Expecting value").toList) rfl

/-! ## Claim C4 -/

/-- C4: a dispatch result with neither `output` nor `error` is coerced —
through the loop's validation and JSON-coercion steps — to
`error: "Invalid tool response format"`, and the submitted batch always
has exactly as many entries as there were tool calls. -/
theorem malformed_result_coerced (env : Env) (r : ToolOutput) (calls : List ToolCall)
    (h1 : r.output = none) (h2 : r.error = none) :
    forceJsonOutput (validateToolResult r) =
      { tool_call_id := r.tool_call_id, output := none,
        error := some (("Invalid tool response format").toList) } ∧
    (submittedBatch env calls).length = calls.length := by
  constructor
  · rcases r with ⟨rid, ro, re⟩
    simp only at h1 h2
    subst h1; subst h2
    rfl
  · simp [submittedBatch]

/-- C4 witness: the coercion at a concrete empty result and the length
preservation on a concrete batch. -/
theorem malformed_result_coerced_witness :
    forceJsonOutput (validateToolResult
      { tool_call_id := ("call_4").toList, output := none, error := none }) =
      { tool_call_id := ("call_4").toList, output := none,
        error := some (("Invalid tool response format").toList) } ∧
    (submittedBatch dummyEnv []).length = ([] : List ToolCall).length :=
  malformed_result_coerced dummyEnv _ [] rfl rfl

/-! ## Claim C10 -/

/-- C10: the submission encoding places every result under the `output`
key (a `SubmitEntry` has no `error` field at all); when the dispatch
result carries an error and no truthy output, the submitted `output` is
the serialized `{"error": <message>}` payload. -/
theorem error_submitted_under_output_key (r : ToolOutput) (msg : List Char)
    (h1 : r.error = some msg) (h2 : r.output = none ∨ r.output = some []) :
    submitEntryOf r =
      { tool_call_id := r.tool_call_id,
        output := jsonDumps (Json.obj (JsonObj.cons (("error").toList)
          (Json.str msg) JsonObj.nil)) } := by
  rcases r with ⟨rid, ro, re⟩
  simp only at h1 h2
  subst h1
  rcases h2 with h2 | h2 <;> subst h2 <;> rfl

/-- C10 witness: a concrete error-only result is submitted as the JSON
string `{"error": "boom"}`. -/
theorem error_submitted_under_output_key_witness :
    submitEntryOf
      { tool_call_id := ("call_3").toList, output := none,
        error := some (("boom").toList) } =
      { tool_call_id := ("call_3").toList,
        output := ("\x7b\"error\": \"boom\"\x7d").toList } :=
  error_submitted_under_output_key
    { tool_call_id := ("call_3").toList, output := none,
      error := some (("boom").toList) }
    (("boom").toList) rfl (Or.inl rfl)

/-! ## Claim C3 -/

/-- C3: a request body whose `question` value is missing or falsy (absent
key, `null`, or the empty string) yields HTTP 400 with body
`{"error": "No question provided"}`, with the session unchanged and no
thread created — for every provider environment and fuel, since the
return happens before any thread or run interaction. -/
theorem empty_question_yields_400 (aenv : AskEnv) (fuel : Nat)
    (sess : Option (List Char)) (kvs : JsonObj)
    (h : pyTruthy (objLookupD kvs (("question").toList) Json.null) = false) :
    ask aenv fuel sess (Json.obj kvs) =
      Except.ok (AskOutcome.done
        { status := 400,
          body := Json.obj (JsonObj.cons (("error").toList)
            (Json.str (("No question provided").toList)) JsonObj.nil),
          sessionOut := sess, threadsCreated := 0 }) := by
  unfold ask
  rw [show pyGet (Json.obj kvs) (("question").toList) =
    Except.ok (objLookupD kvs (("question").toList) Json.null) from rfl]
  show (if (!pyTruthy (objLookupD kvs (("question").toList) Json.null)) = true then
      Except.ok (AskOutcome.done
        { status := 400,
          body := Json.obj (JsonObj.cons (("error").toList)
            (Json.str (("No question provided").toList)) JsonObj.nil),
          sessionOut := sess, threadsCreated := 0 })
    else askMain aenv fuel sess) = _
  rw [h]
  rfl

/-- C3 witness: the concrete bodies `{"question": ""}` and `{}` at a
concrete provider environment. -/
theorem empty_question_yields_400_witness :
    ask trivialAskEnv 0 none
      (Json.obj (JsonObj.cons (("question").toList) (Json.str []) JsonObj.nil)) =
      Except.ok (AskOutcome.done
        { status := 400,
          body := Json.obj (JsonObj.cons (("error").toList)
            (Json.str (("No question provided").toList)) JsonObj.nil),
          sessionOut := none, threadsCreated := 0 }) :=
  empty_question_yields_400 trivialAskEnv 0 none _ (by decide)

/-! ## Claim C8 -/

/-- C8: the `api_key` argument of `get_weather_by_city` and
`get_openweather_onecall` has no effect on their behaviour in any
environment — both read the key from the `WEATHER_API_KEY` environment
variable instead (their requests embed `env.weatherApiKey`) — whereas
`get_historical_weather` does put its `api_key` argument into its
request. -/
theorem api_key_argument_has_no_effect (env : Env)
    (city cc sc ex lat lon k1 k2 start cnt dtp : Json) :
    get_weather_by_city env city k1 cc sc ex = get_weather_by_city env city k2 cc sc ex ∧
    get_openweather_onecall env lat lon k1 ex = get_openweather_onecall env lat lon k2 ex ∧
    (onecallParams env lat lon none).appid = env.weatherApiKey ∧
    (geoParams env city).appid = env.weatherApiKey ∧
    (historyParams lat lon k1 start cnt dtp).appid = k1 :=
  ⟨rfl, rfl, rfl, rfl, rfl⟩

/-! ## Claim C7 -/

/-- C7 counterexample: in an environment whose geocoding lookup returns an
empty result set, dispatching `get_weather_by_city` for "Nowhereville"
does NOT yield a ToolOutput with `error` — the `None` sentinel is
serialized as a successful `output` of `"null"`. -/
theorem geocode_empty_dispatch_is_not_error :
    (get_outputs_for_tools emptyGeoEnv
      { id := ("call_7").toList, function_name := ("get_weather_by_city").toList,
        function_arguments := ("\x7b\"city_name\": \"Nowhereville\"\x7d").toList }).error
        = none ∧
    (get_outputs_for_tools emptyGeoEnv
      { id := ("call_7").toList, function_name := ("get_weather_by_city").toList,
        function_arguments := ("\x7b\"city_name\": \"Nowhereville\"\x7d").toList }).output
        = some (("null").toList) :=
  ⟨rfl, rfl⟩

/-- C7 (amended): when the geocoding lookup returns an empty result set,
`get_weather_by_city` returns the absence sentinel (`None`) rather than
raising, and dispatching that call yields a successful ToolOutput whose
`output` is the serialized null payload `"null"` — not an error. -/
theorem geocode_empty_returns_none_and_null_output (env : Env) (k : Json)
    (cid : List Char)
    (h : ∀ req : GeoRequest, env.geocode req = HttpResult.ok (Json.arr JsonList.nil)) :
    get_weather_by_city env (Json.str (("Nowhereville").toList)) k Json.null Json.null
      Json.null = Except.ok Json.null ∧
    get_outputs_for_tools env
      { id := cid, function_name := ("get_weather_by_city").toList,
        function_arguments := ("\x7b\"city_name\": \"Nowhereville\"\x7d").toList } =
      { tool_call_id := cid, output := some (("null").toList), error := none } := by
  have hcity : ∀ kk : Json,
      get_weather_by_city env (Json.str (("Nowhereville").toList)) kk Json.null Json.null
        Json.null = Except.ok Json.null := by
    intro kk
    unfold get_weather_by_city
    rw [show buildGeoQ (Json.str (("Nowhereville").toList)) Json.null Json.null =
      Except.ok (Json.str (("Nowhereville").toList)) from rfl]
    show (match env.geocode (geoParams env (Json.str (("Nowhereville").toList))) with
      | HttpResult.httpError _ _ => Except.ok Json.null
      | HttpResult.requestError _ => Except.ok Json.null
      | HttpResult.ok geo_data =>
        if pyTruthy geo_data then
          match pyIndex0 geo_data with
          | Except.error e => Except.error e
          | Except.ok first =>
            match pySubscript first (("lat").toList) with
            | Except.error e => Except.error e
            | Except.ok lat =>
              match pySubscript first (("lon").toList) with
              | Except.error e => Except.error e
              | Except.ok lon => get_openweather_onecall env lat lon kk Json.null
        else Except.ok Json.null) = Except.ok Json.null
    rw [h]
    rfl
  refine ⟨hcity k, ?_⟩
  have hdisp : get_outputs_for_tools env
      { id := cid, function_name := ("get_weather_by_city").toList,
        function_arguments := ("\x7b\"city_name\": \"Nowhereville\"\x7d").toList } =
      match get_weather_by_city env (Json.str (("Nowhereville").toList)) Json.null
          Json.null Json.null Json.null with
      | Except.ok result =>
        { tool_call_id := cid, output := some (jsonDumps result), error := none }
      | Except.error e =>
        { tool_call_id := cid, output := none,
          error := some ((("Error executing tool: ").toList) ++ e) } := rfl
  rw [hdisp, hcity Json.null]
  rfl

/-- C7 witness: the theorem applied at the concrete empty-geocoding
environment. -/
theorem geocode_empty_witness :
    get_weather_by_city emptyGeoEnv (Json.str (("Nowhereville").toList)) Json.null
      Json.null Json.null Json.null = Except.ok Json.null ∧
    get_outputs_for_tools emptyGeoEnv
      { id := ("call_8").toList, function_name := ("get_weather_by_city").toList,
        function_arguments := ("\x7b\"city_name\": \"Nowhereville\"\x7d").toList } =
      { tool_call_id := ("call_8").toList, output := some (("null").toList),
        error := none } :=
  geocode_empty_returns_none_and_null_output emptyGeoEnv Json.null (("call_8").toList)
    (fun _ => rfl)
